import Mathlib

set_option maxHeartbeats 1000000

/-!
Shallow embedding of the Extended Exchange Rust SDK settlement-signing
pipeline (`src/signing/stark.rs`) and of the market grid rounding helpers
(`src/models/market.rs`).

Modelling conventions:
* `rust_decimal::Decimal` is modelled as an exact rational number (`ℚ`).
  Within the ranges relevant to the claims every `Decimal` operation the code
  uses (multiplication, `abs`, `ceil`, `floor`, integer conversion) is exact,
  so `ℚ` is a faithful model of those operations.
* `Felt` field elements and Stark key scalars are modelled as natural
  numbers; the external hash and signature primitives
  (`rust_crypto_lib_base::get_order_hash`, `sign_message`,
  `starknet_crypto::get_public_key`) are abstract function parameters of the
  pipeline, exactly as they are external crates invoked by the source.
* 64-bit machine integers are modelled as `ℤ`/`ℕ` with explicit range checks
  and explicit reduction modulo `2 ^ 64` at the one place the code performs a
  wrapping cast (`expiry_epoch_millis as u64`).
* A `rust_decimal` division by a zero divisor panics; the grid-rounding
  functions therefore return `Option ℚ`, with `none` standing for that panic.
-/

/-- Truncation of a rational toward zero: the rounding used by
the `to_i64`/`to_u64` integer conversions of `rust_decimal`, which drop the
fractional part of the decimal. -/
def truncQ (x : ℚ) : ℤ := if 0 ≤ x then ⌊x⌋ else ⌈x⌉

/-- Smallest `i64` value, `-(2^63)`. -/
def I64_MIN : ℤ := -9223372036854775808

/-- Largest `i64` value, `2^63 - 1`. -/
def I64_MAX : ℤ := 9223372036854775807

/-- Largest `u64` value, `2^64 - 1`. -/
def U64_MAX : ℤ := 18446744073709551615

/-- Embedding of `Decimal::to_i64` of `rust_decimal` (via `ToPrimitive`): truncate the
fractional part toward zero and fail (`None`) when the result does not fit in
a signed 64-bit integer. -/
def decimal_to_i64 (x : ℚ) : Option ℤ :=
  if I64_MIN ≤ truncQ x ∧ truncQ x ≤ I64_MAX then some (truncQ x) else none

/-- Embedding of `Decimal::to_u64` of `rust_decimal`: `None` for negative values, otherwise
truncate toward zero and fail when the result does not fit in an unsigned
64-bit integer. -/
def decimal_to_u64 (x : ℚ) : Option ℤ :=
  if x < 0 then none
  else if truncQ x ≤ U64_MAX then some (truncQ x) else none

/-- Settlement resolution for collateral (USDC), `10^6`
(`COLLATERAL_RESOLUTION` in `src/signing/stark.rs`). -/
def COLLATERAL_RESOLUTION : ℤ := 1000000

/-- The value `2 ^ 64`, the modulus of wrapping `u64` arithmetic. -/
def U64_MOD : ℕ := 18446744073709551616

/-- Embedding of `calculate_settlement_expiration` from `src/signing/stark.rs`:
`expiry_epoch_millis as u64` (a wrapping cast, modelled by `% 2^64`), plus the
14-day buffer in milliseconds, then `(total_millis + 999) / 1000`; the `u64`
additions wrap modulo `2^64` (release-mode Rust semantics). -/
def calculate_settlement_expiration (expiry_epoch_millis : ℤ) : ℕ :=
  let expiry_millis : ℕ := (expiry_epoch_millis % (U64_MOD : ℤ)).toNat
  let buffer_millis : ℕ := 14 * 24 * 60 * 60 * 1000
  let total_millis : ℕ := (expiry_millis + buffer_millis) % U64_MOD
  ((total_millis + 999) % U64_MOD) / 1000

/-- Ceiling division on integers, `(a + b - 1) / b` computed exactly with
floor division — the `ceil_div` contract of the spec for positive divisors. -/
def ceil_div (a b : ℤ) : ℤ := (a + b - 1) / b

/-- Risk factor tier (`RiskFactorConfig` in `src/models/market.rs`). -/
structure RiskFactorConfig where
  upper_bound : ℚ
  risk_factor : ℚ

/-- Market trading configuration (`MarketConfig` in `src/models/market.rs`).
Decimal fields are modelled as `ℚ`. -/
structure MarketConfig where
  min_order_size : ℚ
  min_order_size_change : ℚ
  min_price_change : ℚ
  max_market_order_value : ℚ
  max_limit_order_value : ℚ
  max_position_value : ℚ
  max_leverage : ℚ
  max_num_orders : ℤ
  limit_price_cap : ℚ
  limit_price_floor : ℚ
  risk_factor_config : List RiskFactorConfig

/-- Embedding of `MarketConfig::round_price_down`:
`(price / self.min_price_change).floor() * self.min_price_change`.
A zero divisor makes the `rust_decimal` division panic, modelled as `none`. -/
def MarketConfig.round_price_down (cfg : MarketConfig) (price : ℚ) : Option ℚ :=
  if cfg.min_price_change = 0 then none
  else some (⌊price / cfg.min_price_change⌋ * cfg.min_price_change)

/-- Embedding of `MarketConfig::round_price_up`:
`(price / self.min_price_change).ceil() * self.min_price_change`. -/
def MarketConfig.round_price_up (cfg : MarketConfig) (price : ℚ) : Option ℚ :=
  if cfg.min_price_change = 0 then none
  else some (⌈price / cfg.min_price_change⌉ * cfg.min_price_change)

/-- Embedding of `MarketConfig::round_qty_down`:
`(quantity / self.min_order_size_change).floor() * self.min_order_size_change`. -/
def MarketConfig.round_qty_down (cfg : MarketConfig) (quantity : ℚ) : Option ℚ :=
  if cfg.min_order_size_change = 0 then none
  else some (⌊quantity / cfg.min_order_size_change⌋ * cfg.min_order_size_change)

/-- Embedding of `MarketConfig::round_qty_up`:
`(quantity / self.min_order_size_change).ceil() * self.min_order_size_change`. -/
def MarketConfig.round_qty_up (cfg : MarketConfig) (quantity : ℚ) : Option ℚ :=
  if cfg.min_order_size_change = 0 then none
  else some (⌈quantity / cfg.min_order_size_change⌉ * cfg.min_order_size_change)

/-- Order side (`OrderSide` in `src/models/order.rs`). -/
inductive OrderSide where
  | Buy : OrderSide
  | Sell : OrderSide
deriving DecidableEq

/-- Stark signature components as hex strings
(`SettlementSignature` in `src/models/order.rs`). -/
structure SettlementSignature where
  r : String
  s : String
deriving DecidableEq

/-- Stark settlement model attached to a signed order
(`StarkSettlementModel` in `src/models/order.rs`). -/
structure StarkSettlementModel where
  signature : SettlementSignature
  stark_key : String
  collateral_position : ℚ
deriving DecidableEq

/-- Debugging amounts attached to a signed order
(`StarkDebuggingOrderAmounts` in `src/models/order.rs`). -/
structure StarkDebuggingOrderAmounts where
  collateral_amount : ℚ
  fee_amount : ℚ
  synthetic_amount : ℚ
deriving DecidableEq

/-- The part of `CreateOrderRequest` (`src/models/order.rs`) read or written
by the signing pipeline.  The remaining fields (market, order type, time in
force, triggers, …) are carried through `sign_order_with_params` unchanged
and play no role in any claim. -/
structure CreateOrderRequest where
  id : String
  side : OrderSide
  price : ℚ
  quantity : ℚ
  expiry_epoch_millis : ℤ
  fee : ℚ
  nonce : ℚ
  settlement : Option StarkSettlementModel
  debugging_amounts : Option StarkDebuggingOrderAmounts
deriving DecidableEq

/-- Starknet signing domain (`StarknetDomain` in `src/config.rs`). -/
structure StarknetDomain where
  name : String
  version : String
  chain_id : String
  revision : String
deriving DecidableEq

/-- Parameters needed for signing an order
(`OrderSigningParams` in `src/signing/stark.rs`).  `vault_id` is a `u32`. -/
structure OrderSigningParams where
  vault_id : ℕ
  synthetic_asset_id : String
  synthetic_resolution : ℤ
  collateral_asset_id : String
  domain : StarknetDomain

/-- The error type of the pipeline: only the `ExtendedError::Signing(String)`
variant of `src/error.rs` is reachable from the signing code. -/
inductive ExtendedError where
  | Signing : String → ExtendedError
deriving DecidableEq

/-- Negation of an `i64` value with release-mode Rust semantics: two's
complement wrapping, so negating `i64::MIN` yields `i64::MIN` again; on every
other in-range value it coincides with exact negation. -/
def i64_neg (z : ℤ) : ℤ :=
  ((-z + 9223372036854775808) % 18446744073709551616) - 9223372036854775808

/-- Embedding of `calculate_stark_amounts` from `src/signing/stark.rs`: convert the
human-readable order values into Stark settlement integers
`(final_synthetic, final_collateral, fee_amount_stark)`.  The side-dependent
sign assignment negates `i64` values, modelled by `i64_neg`. -/
def calculate_stark_amounts (order : CreateOrderRequest)
    (params : OrderSigningParams) : Except ExtendedError (ℤ × ℤ × ℤ) :=
  let synthetic_amount_human := order.quantity
  match decimal_to_i64 (synthetic_amount_human * (params.synthetic_resolution : ℚ)) with
  | none => .error (.Signing ("Synthetic amount overflow"))
  | some synthetic_amount_stark =>
    let collateral_amount_human := order.price * order.quantity
    match decimal_to_i64 (collateral_amount_human * (COLLATERAL_RESOLUTION : ℚ)) with
    | none => .error (.Signing ("Collateral amount overflow"))
    | some collateral_amount_stark =>
      let fee_amount_human := order.fee * collateral_amount_human
      match decimal_to_u64 ((⌈|fee_amount_human * (COLLATERAL_RESOLUTION : ℚ)|⌉ : ℚ)) with
      | none => .error (.Signing ("Fee amount overflow"))
      | some fee_amount_stark =>
        match order.side with
        | .Buy => .ok (synthetic_amount_stark, i64_neg collateral_amount_stark, fee_amount_stark)
        | .Sell => .ok (i64_neg synthetic_amount_stark, collateral_amount_stark, fee_amount_stark)

/-- Stark signer holding a private key scalar and a (possibly independently
supplied) public key (`StarkSigner` in `src/signing/stark.rs`). -/
structure StarkSigner where
  private_key : ℕ
  public_key : ℕ
deriving DecidableEq

/-- Embedding of `StarkSigner::new`: derive the public key from the private key through the
external curve primitive `get_public_key` (passed as a parameter). -/
def StarkSigner.new (get_public_key : ℕ → ℕ) (private_key : ℕ) : StarkSigner :=
  { private_key := private_key, public_key := get_public_key private_key }

/-- Embedding of `StarkSigner::with_public_key`: store an explicitly supplied public key
without any consistency check. -/
def StarkSigner.with_public_key (private_key public_key : ℕ) : StarkSigner :=
  { private_key := private_key, public_key := public_key }

/-- Embedding of `StarkSigner::verify_public_key`: compare the derived public key with the
stored one; returns a boolean, never an error. -/
def StarkSigner.verify_public_key (get_public_key : ℕ → ℕ)
    (signer : StarkSigner) : Bool :=
  decide (get_public_key signer.private_key = signer.public_key)

/-- Embedding of the Rust format `\x7b:#x\x7d` for a felt: `0x` followed by minimal lowercase
hexadecimal digits, used for public keys and signature components. -/
def felt_hex (n : ℕ) : String := "0x" ++ String.mk (Nat.toDigits 16 n)

/-- Embedding of `StarkSigner::sign`: invoke the external signature primitive
`sign_message(message_hash, private_key)` and wrap its error. -/
def StarkSigner.sign (sign_message : ℕ → ℕ → Except String (ℕ × ℕ))
    (signer : StarkSigner) (message_hash : ℕ) : Except ExtendedError (ℕ × ℕ) :=
  match sign_message message_hash signer.private_key with
  | .error e => .error (.Signing ("Failed to sign: " ++ e))
  | .ok rs => .ok rs

/-- The ordered field list handed to the external canonical-hash primitive
`rust_crypto_lib_base::get_order_hash`, in the argument order of the call in
`sign_order_with_params`. -/
structure OrderHashInput where
  vault_id : String
  synthetic_asset_id : String
  synthetic_amount : String
  collateral_asset_id : String
  collateral_amount : String
  fee_asset_id : String
  fee_amount : String
  expiration : String
  nonce : String
  public_key : String
  domain_name : String
  domain_version : String
  domain_chain_id : String
  domain_revision : String
deriving DecidableEq

/-- Embedding of `order.nonce.to_u64().unwrap_or(0)` from `sign_order_with_params`
(line 203 of `src/signing/stark.rs`). -/
def order_nonce_u64 (order : CreateOrderRequest) : ℤ :=
  (decimal_to_u64 order.nonce).getD 0

/-- The hash preimage assembled by `sign_order_with_params`: every numeric
field as its decimal string, asset ids verbatim, the fee asset being the
collateral asset, and the *stored* public key of the signer in hex. -/
def order_hash_input (order : CreateOrderRequest) (signer : StarkSigner)
    (params : OrderSigningParams) (synthetic_amount collateral_amount fee_amount : ℤ) :
    OrderHashInput :=
  { vault_id := toString params.vault_id
    synthetic_asset_id := params.synthetic_asset_id
    synthetic_amount := toString synthetic_amount
    collateral_asset_id := params.collateral_asset_id
    collateral_amount := toString collateral_amount
    fee_asset_id := params.collateral_asset_id
    fee_amount := toString fee_amount
    expiration := toString (calculate_settlement_expiration order.expiry_epoch_millis)
    nonce := toString (order_nonce_u64 order)
    public_key := felt_hex signer.public_key
    domain_name := params.domain.name
    domain_version := params.domain.version
    domain_chain_id := params.domain.chain_id
    domain_revision := params.domain.revision }

/-- Rust `u64 as i64`: wrap a value already reduced into `[0, 2^64)` into the
signed 64-bit range.  Used by `Decimal::from(fee_amount as i64)` when the
debugging amounts are populated. -/
def u64_as_i64 (z : ℤ) : ℤ := ((z + 9223372036854775808) % 18446744073709551616) - 9223372036854775808

/-- Embedding of `sign_order_with_params` from `src/signing/stark.rs`, parameterized by the
two external primitives it invokes (`get_order_hash` and `sign_message`).
On success it returns the input order with `id` set to the decimal string of
the hash, a populated settlement attachment, and debugging amounts. -/
def sign_order_with_params (get_order_hash : OrderHashInput → Except String ℕ)
    (sign_message : ℕ → ℕ → Except String (ℕ × ℕ))
    (order : CreateOrderRequest) (signer : StarkSigner)
    (params : OrderSigningParams) : Except ExtendedError CreateOrderRequest :=
  match calculate_stark_amounts order params with
  | .error e => .error e
  | .ok (synthetic_amount, collateral_amount, fee_amount) =>
    match get_order_hash
        (order_hash_input order signer params synthetic_amount collateral_amount fee_amount) with
    | .error e => .error (.Signing ("Failed to compute order hash: " ++ e))
    | .ok order_hash =>
      match StarkSigner.sign sign_message signer order_hash with
      | .error e => .error e
      | .ok (r, s) =>
        .ok { order with
              id := toString order_hash
              settlement := some
                { signature := { r := felt_hex r, s := felt_hex s }
                  stark_key := felt_hex signer.public_key
                  collateral_position := (params.vault_id : ℚ) }
              debugging_amounts := some
                { collateral_amount := (collateral_amount : ℚ)
                  fee_amount := ((u64_as_i64 fee_amount : ℤ) : ℚ)
                  synthetic_amount := (synthetic_amount : ℚ) } }

/-- Modelled from the spec: round-to-nearest-integer conversion, the rounding
the spec attributes to the synthetic and collateral unit computations.  Stated
only for comparison against the truncating conversion of the source. -/
def round_to_nearest_int (x : ℚ) : ℤ := round x

theorem truncQ_of_nonneg {x : ℚ} (h : 0 ≤ x) : truncQ x = ⌊x⌋ := by
  rw [truncQ, if_pos h]

theorem truncQ_intCast (n : ℤ) : truncQ (n : ℚ) = n := by
  rw [truncQ]
  rcases le_or_lt 0 (n : ℚ) with h | h
  · rw [if_pos h, Int.floor_intCast]
  · rw [if_neg (not_le.mpr h), Int.ceil_intCast]

theorem truncQ_nonneg {x : ℚ} (h : 0 ≤ x) : 0 ≤ truncQ x := by
  rw [truncQ_of_nonneg h]
  exact Int.floor_nonneg.mpr h

theorem one_le_truncQ {x : ℚ} (h : 1 ≤ x) : 1 ≤ truncQ x := by
  rw [truncQ_of_nonneg (le_trans zero_le_one h)]
  exact Int.le_floor.mpr (by exact_mod_cast h)

theorem truncQ_big {x : ℚ} (h : (9223372036854775808 : ℚ) ≤ x) :
    I64_MAX < truncQ x := by
  rw [truncQ_of_nonneg (le_trans (by norm_num) h), I64_MAX]
  have : (9223372036854775808 : ℤ) ≤ ⌊x⌋ := Int.le_floor.mpr (by exact_mod_cast h)
  omega

theorem decimal_to_i64_eq_some {x : ℚ} {v : ℤ} :
    decimal_to_i64 x = some v ↔
      v = truncQ x ∧ I64_MIN ≤ truncQ x ∧ truncQ x ≤ I64_MAX := by
  rw [decimal_to_i64]
  split
  · rename_i h
    simp only [Option.some.injEq]
    constructor
    · rintro rfl; exact ⟨rfl, h⟩
    · rintro ⟨rfl, -⟩; rfl
  · rename_i h
    simp only [reduceCtorEq, false_iff]
    rintro ⟨rfl, h2⟩
    exact h h2

theorem decimal_to_i64_big_none {x : ℚ} (h : (9223372036854775808 : ℚ) ≤ x) :
    decimal_to_i64 x = none := by
  rw [decimal_to_i64, if_neg]
  intro ⟨_, hle⟩
  exact absurd hle (not_le.mpr (truncQ_big h))

theorem decimal_to_u64_eq_some {x : ℚ} {v : ℤ} :
    decimal_to_u64 x = some v ↔
      ¬ x < 0 ∧ v = truncQ x ∧ truncQ x ≤ U64_MAX := by
  rw [decimal_to_u64]
  split
  · rename_i h
    simp only [reduceCtorEq, false_iff]
    rintro ⟨hn, -⟩
    exact hn h
  · rename_i h
    split
    · rename_i h2
      simp only [Option.some.injEq]
      constructor
      · rintro rfl; exact ⟨h, rfl, h2⟩
      · rintro ⟨-, rfl, -⟩; rfl
    · rename_i h2
      simp only [reduceCtorEq, false_iff]
      rintro ⟨-, rfl, h3⟩
      exact h2 h3

theorem i64_neg_eq_neg {z : ℤ} (h1 : I64_MIN < z) (h2 : z ≤ I64_MAX) :
    i64_neg z = -z := by
  rw [I64_MIN] at h1
  rw [I64_MAX] at h2
  rw [i64_neg]
  omega

/-- Unfolding characterization of `calculate_stark_amounts`: success produces
exactly the converted synthetic and collateral units and the ceiling fee, with
the Buy/Sell sign convention applied afterwards. -/
theorem calculate_stark_amounts_ok_iff (order : CreateOrderRequest)
    (params : OrderSigningParams) (s c f : ℤ) :
    calculate_stark_amounts order params = .ok (s, c, f) ↔
      ∃ su cu,
        decimal_to_i64 (order.quantity * (params.synthetic_resolution : ℚ)) = some su ∧
        decimal_to_i64 ((order.price * order.quantity) * (COLLATERAL_RESOLUTION : ℚ)) = some cu ∧
        decimal_to_u64 ((⌈|(order.fee * (order.price * order.quantity)) * (COLLATERAL_RESOLUTION : ℚ)|⌉ : ℚ)) = some f ∧
        ((order.side = .Buy ∧ s = su ∧ c = i64_neg cu) ∨
         (order.side = .Sell ∧ s = i64_neg su ∧ c = cu)) := by
  rw [calculate_stark_amounts]
  cases h1 : decimal_to_i64 (order.quantity * (params.synthetic_resolution : ℚ)) with
  | none => simp [h1]
  | some su =>
    simp only [h1]
    cases h2 : decimal_to_i64 ((order.price * order.quantity) * (COLLATERAL_RESOLUTION : ℚ)) with
    | none => simp [h2]
    | some cu =>
      simp only [h2]
      cases h3 : decimal_to_u64 ((⌈|(order.fee * (order.price * order.quantity)) * (COLLATERAL_RESOLUTION : ℚ)|⌉ : ℚ)) with
      | none => simp [h3]
      | some fu =>
        simp only [h3]
        cases hside : order.side with
        | Buy =>
          simp only [Option.some.injEq, Except.ok.injEq, Prod.mk.injEq,
            reduceCtorEq, false_and, and_false, or_false, true_and]
          aesop
        | Sell =>
          simp only [Option.some.injEq, Except.ok.injEq, Prod.mk.injEq,
            reduceCtorEq, false_and, and_false, false_or, true_and]
          aesop

theorem truncQ_eval {x : ℚ} {v : ℤ} (h0 : 0 ≤ x) (h1 : (v : ℚ) ≤ x)
    (h2 : x < v + 1) : truncQ x = v := by
  rw [truncQ_of_nonneg h0, Int.floor_eq_iff]
  exact ⟨h1, by exact_mod_cast h2⟩

theorem ceilQ_eval {x : ℚ} {v : ℤ} (h1 : (v : ℚ) - 1 < x) (h2 : x ≤ v) :
    ⌈x⌉ = v := Int.ceil_eq_iff.mpr ⟨h1, h2⟩

theorem decimal_to_i64_of_small {x : ℚ} {v : ℤ} (hv : truncQ x = v)
    (h1 : -9223372036854775808 ≤ v) (h2 : v ≤ 9223372036854775807) :
    decimal_to_i64 x = some v :=
  decimal_to_i64_eq_some.mpr ⟨hv.symm, by rw [hv, I64_MIN]; exact h1,
    by rw [hv, I64_MAX]; exact h2⟩

theorem decimal_to_u64_of_small {x : ℚ} {v : ℤ} (h0 : 0 ≤ x)
    (hv : truncQ x = v) (h2 : v ≤ 18446744073709551615) :
    decimal_to_u64 x = some v :=
  decimal_to_u64_eq_some.mpr ⟨not_lt.mpr h0, hv.symm, by rw [hv, U64_MAX]; exact h2⟩

/-- A fixed domain used by the concrete test inputs. -/
def sample_domain : StarknetDomain :=
  { name := "Perpetuals", version := "v0", chain_id := "SN_SEPOLIA", revision := "1" }

/-- Signing parameters with synthetic resolution 10 used by concrete inputs. -/
def sample_params : OrderSigningParams :=
  { vault_id := 7, synthetic_asset_id := "0x2", synthetic_resolution := 10,
    collateral_asset_id := "0x1", domain := sample_domain }

/-- A baseline Buy order the concrete inputs vary. -/
def sample_order : CreateOrderRequest :=
  { id := "", side := .Buy, price := 2, quantity := 3, expiry_epoch_millis := 0,
    fee := 0, nonce := 0, settlement := none, debugging_amounts := none }

/-- Order used to exhibit the truncation behaviour: quantity `0.16` at
price `10`, zero fee, against resolution `10`. -/
def c1_order : CreateOrderRequest :=
  { sample_order with quantity := 16/100, price := 10 }

/-- C1.  The claim states the synthetic and collateral settlement units are
computed by round-to-nearest-integer.  Counterexample: for quantity `0.16`
and synthetic resolution `10` the product is `1.6`, whose nearest integer is
`2`, yet the `to_i64` of the code truncates it to `1` and canonicalization
succeeds with synthetic unit `1`. -/
theorem C1_counterexample :
    calculate_stark_amounts c1_order sample_params = .ok (1, -1600000, 0) ∧
    round_to_nearest_int (c1_order.quantity * (sample_params.synthetic_resolution : ℚ)) = 2 := by
  constructor
  · norm_num [calculate_stark_amounts, decimal_to_i64, decimal_to_u64, truncQ, i64_neg,
      c1_order, sample_order, sample_params, I64_MIN, I64_MAX, U64_MAX,
      COLLATERAL_RESOLUTION]
  · norm_num [round_to_nearest_int, round_eq, c1_order, sample_order, sample_params]

/-- C1 (amended).  The canonicalizer computes the synthetic settlement units
as the truncation toward zero of `quantity × synthetic_resolution` and the
collateral settlement units as the truncation toward zero of
`price × quantity × collateral_resolution` (not round-to-nearest); the
side-dependent sign assignment then negates as a 64-bit machine integer
(`i64_neg`, wrapping at `i64::MIN`), which coincides with exact negation
whenever the truncated unit exceeds `i64::MIN`. -/
theorem C1_units_are_truncated :
    ∀ (order : CreateOrderRequest) (params : OrderSigningParams) (s c f : ℤ),
      calculate_stark_amounts order params = .ok (s, c, f) →
      (order.side = .Buy →
        s = truncQ (order.quantity * (params.synthetic_resolution : ℚ)) ∧
        c = i64_neg (truncQ ((order.price * order.quantity) * (COLLATERAL_RESOLUTION : ℚ))) ∧
        (I64_MIN < truncQ ((order.price * order.quantity) * (COLLATERAL_RESOLUTION : ℚ)) →
          c = -truncQ ((order.price * order.quantity) * (COLLATERAL_RESOLUTION : ℚ)))) ∧
      (order.side = .Sell →
        s = i64_neg (truncQ (order.quantity * (params.synthetic_resolution : ℚ))) ∧
        c = truncQ ((order.price * order.quantity) * (COLLATERAL_RESOLUTION : ℚ)) ∧
        (I64_MIN < truncQ (order.quantity * (params.synthetic_resolution : ℚ)) →
          s = -truncQ (order.quantity * (params.synthetic_resolution : ℚ)))) := by
  intro order params s c f h
  rw [calculate_stark_amounts_ok_iff] at h
  obtain ⟨su, cu, hsu, hcu, -, hcase⟩ := h
  rw [decimal_to_i64_eq_some] at hsu hcu
  obtain ⟨rfl, hsu1, hsu2⟩ := hsu
  obtain ⟨rfl, hcu1, hcu2⟩ := hcu
  rcases hcase with ⟨hside, rfl, rfl⟩ | ⟨hside, rfl, rfl⟩
  · exact ⟨fun _ => ⟨rfl, rfl, fun hgt => i64_neg_eq_neg hgt hcu2⟩,
      fun h2 => OrderSide.noConfusion (hside.symm.trans h2)⟩
  · exact ⟨fun h2 => OrderSide.noConfusion (hside.symm.trans h2),
      fun _ => ⟨rfl, rfl, fun hgt => i64_neg_eq_neg hgt hsu2⟩⟩

/-- Witness for C1 (amended) at the sample Buy order. -/
theorem C1_units_are_truncated_witness :
    (30 : ℤ) = truncQ (sample_order.quantity * (sample_params.synthetic_resolution : ℚ)) ∧
    (-6000000 : ℤ) = i64_neg (truncQ ((sample_order.price * sample_order.quantity) * (COLLATERAL_RESOLUTION : ℚ))) ∧
    (-6000000 : ℤ) = -truncQ ((sample_order.price * sample_order.quantity) * (COLLATERAL_RESOLUTION : ℚ)) := by
  have h := (C1_units_are_truncated sample_order sample_params 30 (-6000000) 0
    (by norm_num [calculate_stark_amounts, decimal_to_i64, decimal_to_u64, truncQ, i64_neg,
      sample_order, sample_params, I64_MIN, I64_MAX, U64_MAX, COLLATERAL_RESOLUTION])).1 rfl
  exact ⟨h.1, h.2.1, h.2.2 (by norm_num [truncQ, sample_order, sample_params,
    COLLATERAL_RESOLUTION, I64_MIN])⟩

/-- Buy order whose settlement products are positive but below one unit:
quantity `1/20` (product with resolution 10 is `0.5`) and price `1/100000`
(collateral product is `0.5`). -/
def c2_order : CreateOrderRequest :=
  { sample_order with quantity := 1/20, price := 1/100000 }

/-- C2.  The claim states a Buy with `quantity > 0` always gets a strictly
positive synthetic amount, and strictly negative collateral amount when
`price × quantity > 0`.  Counterexample: both products are `0.5`, which
truncates to `0`; canonicalization succeeds with synthetic and collateral
amounts both `0`. -/
theorem C2_counterexample :
    c2_order.side = .Buy ∧ 0 < c2_order.quantity ∧
    0 < c2_order.price * c2_order.quantity ∧
    calculate_stark_amounts c2_order sample_params = .ok (0, 0, 0) := by
  refine ⟨rfl, by norm_num [c2_order, sample_order], by norm_num [c2_order, sample_order], ?_⟩
  norm_num [calculate_stark_amounts, decimal_to_i64, decimal_to_u64, truncQ, i64_neg,
    c2_order, sample_order, sample_params, I64_MIN, I64_MAX, U64_MAX,
    COLLATERAL_RESOLUTION]

/-- C2 (amended).  Sign invariant under the truncating conversion: for a Buy
the synthetic amount is strictly positive whenever
`quantity × synthetic_resolution ≥ 1`, and the collateral amount strictly
negative whenever `price × quantity × collateral_resolution ≥ 1` (products in
`(0,1)` truncate to zero); for a Sell the signs are exactly inverted. -/
theorem C2_sign_invariant :
    ∀ (order : CreateOrderRequest) (params : OrderSigningParams) (s c f : ℤ),
      calculate_stark_amounts order params = .ok (s, c, f) →
      (1 ≤ order.quantity * (params.synthetic_resolution : ℚ) →
        (order.side = .Buy → 0 < s) ∧ (order.side = .Sell → s < 0)) ∧
      (1 ≤ (order.price * order.quantity) * (COLLATERAL_RESOLUTION : ℚ) →
        (order.side = .Buy → c < 0) ∧ (order.side = .Sell → 0 < c)) := by
  intro order params s c f h
  rw [calculate_stark_amounts_ok_iff] at h
  obtain ⟨su, cu, hsu, hcu, -, hcase⟩ := h
  rw [decimal_to_i64_eq_some] at hsu hcu
  obtain ⟨rfl, hsu1, hsu2⟩ := hsu
  obtain ⟨rfl, hcu1, hcu2⟩ := hcu
  rw [I64_MAX] at hsu2 hcu2
  rcases hcase with ⟨hside, rfl, rfl⟩ | ⟨hside, rfl, rfl⟩
  · refine ⟨fun hq => ⟨fun _ => ?_, fun h2 => OrderSide.noConfusion (hside.symm.trans h2)⟩,
      fun hc => ⟨fun _ => ?_, fun h2 => OrderSide.noConfusion (hside.symm.trans h2)⟩⟩
    · have := one_le_truncQ hq
      omega
    · have := one_le_truncQ hc
      rw [i64_neg]
      omega
  · refine ⟨fun hq => ⟨fun h2 => OrderSide.noConfusion (hside.symm.trans h2), fun _ => ?_⟩,
      fun hc => ⟨fun h2 => OrderSide.noConfusion (hside.symm.trans h2), fun _ => ?_⟩⟩
    · have := one_le_truncQ hq
      rw [i64_neg]
      omega
    · have := one_le_truncQ hc
      omega

/-- Witness for C2 (amended) at the sample Buy order, whose products are
`30` and `6000000`. -/
theorem C2_sign_invariant_witness : (0 : ℤ) < 30 ∧ (-6000000 : ℤ) < 0 := by
  have h := C2_sign_invariant sample_order sample_params 30 (-6000000) 0
    (by norm_num [calculate_stark_amounts, decimal_to_i64, decimal_to_u64, truncQ, i64_neg,
      sample_order, sample_params, I64_MIN, I64_MAX, U64_MAX, COLLATERAL_RESOLUTION])
  exact ⟨(h.1 (by norm_num [sample_order, sample_params])).1 rfl,
    (h.2 (by norm_num [sample_order, sample_params, COLLATERAL_RESOLUTION])).1 rfl⟩

/-- The fee component of `calculate_stark_amounts` does not depend on the
order side: the amount and fee computations all precede the Buy/Sell sign
match, which only negates the synthetic/collateral components. -/
theorem calc_fee_map_side (order : CreateOrderRequest)
    (params : OrderSigningParams) (sd : OrderSide) :
    (calculate_stark_amounts { order with side := sd } params).map (fun t => t.2.2) =
      (calculate_stark_amounts { order with side := OrderSide.Buy } params).map (fun t => t.2.2) := by
  rw [calculate_stark_amounts, calculate_stark_amounts]
  dsimp only
  cases decimal_to_i64 (order.quantity * (params.synthetic_resolution : ℚ)) with
  | none => rfl
  | some su =>
    cases decimal_to_i64 ((order.price * order.quantity) * (COLLATERAL_RESOLUTION : ℚ)) with
    | none => rfl
    | some cu =>
      cases decimal_to_u64 ((⌈|(order.fee * (order.price * order.quantity)) * (COLLATERAL_RESOLUTION : ℚ)|⌉ : ℚ)) with
      | none => rfl
      | some fu => cases sd <;> rfl

/-- C3.  For every order intent (either side) the canonicalized fee amount
equals `⌈|fee_rate × price × quantity| × collateral_resolution⌉` with
collateral resolution `10^6`, is non-negative, and is unaffected by the
side-dependent sign assignment (flipping the side yields the same fee
component). -/
theorem C3_fee_ceiling :
    ∀ (order : CreateOrderRequest) (params : OrderSigningParams) (s c f : ℤ),
      calculate_stark_amounts order params = .ok (s, c, f) →
      f = ⌈|order.fee * (order.price * order.quantity)| * (COLLATERAL_RESOLUTION : ℚ)⌉ ∧
      0 ≤ f ∧
      (calculate_stark_amounts { order with side := OrderSide.Buy } params).map (fun t => t.2.2) =
        (calculate_stark_amounts { order with side := OrderSide.Sell } params).map (fun t => t.2.2) := by
  intro order params s c f h
  rw [calculate_stark_amounts_ok_iff] at h
  obtain ⟨su, cu, -, -, hfu, -⟩ := h
  rw [decimal_to_u64_eq_some] at hfu
  obtain ⟨-, rfl, -⟩ := hfu
  rw [truncQ_intCast]
  have habs : |(order.fee * (order.price * order.quantity)) * (COLLATERAL_RESOLUTION : ℚ)| =
      |order.fee * (order.price * order.quantity)| * (COLLATERAL_RESOLUTION : ℚ) := by
    rw [abs_mul, abs_of_nonneg (by norm_num [COLLATERAL_RESOLUTION] :
      (0 : ℚ) ≤ (COLLATERAL_RESOLUTION : ℚ))]
  refine ⟨by rw [habs], ?_, (calc_fee_map_side order params OrderSide.Sell).symm⟩
  exact Int.ceil_nonneg (abs_nonneg _)

/-- Witness for C3 at the sample order (fee rate 0, fee amount 0). -/
theorem C3_fee_ceiling_witness :
    (0 : ℤ) = ⌈|sample_order.fee * (sample_order.price * sample_order.quantity)| * (COLLATERAL_RESOLUTION : ℚ)⌉ ∧
    (0 : ℤ) ≤ 0 ∧
    (calculate_stark_amounts { sample_order with side := OrderSide.Buy } sample_params).map (fun t => t.2.2) =
      (calculate_stark_amounts { sample_order with side := OrderSide.Sell } sample_params).map (fun t => t.2.2) :=
  C3_fee_ceiling sample_order sample_params 30 (-6000000) 0
    (by norm_num [calculate_stark_amounts, decimal_to_i64, decimal_to_u64, truncQ, i64_neg,
      sample_order, sample_params, I64_MIN, I64_MAX, U64_MAX, COLLATERAL_RESOLUTION])

/-- C4.  The claim states the settlement expiration equals
`ceil_div(expiry_millis + 14 days, 1000)` for every i64 input and is monotonic
over the whole i64 domain.  Counterexample: at `expiry_millis = -1209601000`
(one second below minus the buffer) the `as u64` cast wraps, the code returns
the astronomical value `18446744073709551`, while the claimed formula gives
`-1`; monotonicity also fails since the input is below `0` yet its output
exceeds the output at `0`. -/
theorem C4_counterexample :
    calculate_settlement_expiration (-1209601000) = 18446744073709551 ∧
    ceil_div ((-1209601000) + 1209600000) 1000 = -1 ∧
    calculate_settlement_expiration 0 = 1209600 ∧
    calculate_settlement_expiration 0 < calculate_settlement_expiration (-1209601000) :=
  ⟨by decide, by decide, by decide, by decide⟩

/-- C4 (amended).  For every i64 `expiry_millis ≥ -1209600000` (minus the
14-day buffer) the settlement expiration equals
`ceil_div(expiry_millis + 1209600000, 1000)` in exact integer arithmetic and
is monotonic non-decreasing on that domain; at `expiry_millis = 0` it equals
`1209600`.  Below `-1209600000` the wrapping `as u64` cast breaks both
properties. -/
theorem C4_expiration_formula :
    (∀ x : ℤ, -1209600000 ≤ x → x ≤ 9223372036854775807 →
      (calculate_settlement_expiration x : ℤ) = ceil_div (x + 1209600000) 1000) ∧
    (∀ x y : ℤ, -1209600000 ≤ x → x ≤ y → y ≤ 9223372036854775807 →
      calculate_settlement_expiration x ≤ calculate_settlement_expiration y) ∧
    calculate_settlement_expiration 0 = 1209600 := by
  refine ⟨?_, ?_, by decide⟩
  · intro x h1 h2
    simp only [calculate_settlement_expiration, ceil_div, U64_MOD]
    omega
  · intro x y h1 h2 h3
    simp only [calculate_settlement_expiration, U64_MOD]
    omega

/-- Witness for C4 (amended) at inputs 0, -5 and 7. -/
theorem C4_expiration_formula_witness :
    (calculate_settlement_expiration 0 : ℤ) = ceil_div (0 + 1209600000) 1000 ∧
    calculate_settlement_expiration (-5) ≤ calculate_settlement_expiration 7 :=
  ⟨C4_expiration_formula.1 0 (by decide) (by decide),
   C4_expiration_formula.2.1 (-5) 7 (by decide) (by decide) (by decide)⟩

/-- Market configuration with negative tick size `-1` and negative step
size `-1`. -/
def c5_config : MarketConfig :=
  { min_order_size := 1, min_order_size_change := -1, min_price_change := -1,
    max_market_order_value := 0, max_limit_order_value := 0,
    max_position_value := 0, max_leverage := 0, max_num_orders := 0,
    limit_price_cap := 0, limit_price_floor := 0, risk_factor_config := [] }

/-- The same configuration with tick size and step size both `0`. -/
def c5_zero_config : MarketConfig :=
  { c5_config with min_price_change := 0, min_order_size_change := 0 }

/-- C5.  The claim states a zero or negative grid makes the price/quantity
rounding operations fail fast with a configuration-type error distinct from a
user-input error.  Counterexample: with tick size `-1` the price rounding
succeeds and returns `5`, and with step size `-1` the quantity rounding
likewise succeeds and returns `5`; with a zero tick or step size they panic
on division by zero (`none`), which is not a typed error either — the
functions return plain decimals and have no error channel at all. -/
theorem C5_counterexample :
    MarketConfig.round_price_down c5_config 5 = some 5 ∧
    MarketConfig.round_qty_down c5_config 5 = some 5 ∧
    MarketConfig.round_price_down c5_zero_config 5 = none ∧
    MarketConfig.round_qty_down c5_zero_config 5 = none := by
  refine ⟨?_, ?_, ?_, ?_⟩
  · norm_num [MarketConfig.round_price_down, c5_config]
  · norm_num [MarketConfig.round_qty_down, c5_config]
  · norm_num [MarketConfig.round_price_down, c5_zero_config, c5_config]
  · norm_num [MarketConfig.round_qty_down, c5_zero_config, c5_config]

/-- C5 (amended).  A zero grid makes the price and quantity rounding
operations panic via a division by zero (modelled `none`) rather than return
a distinct configuration error, and a negative grid is silently accepted,
producing `floor(value / grid) × grid` (resp. `ceil`): no
configuration-error channel distinct from user-input errors exists, for
either the tick-size or the step-size operations. -/
theorem C5_no_config_error :
    ∀ (cfg : MarketConfig) (x : ℚ),
      (cfg.min_price_change = 0 →
        MarketConfig.round_price_down cfg x = none ∧
        MarketConfig.round_price_up cfg x = none) ∧
      (cfg.min_price_change < 0 →
        MarketConfig.round_price_down cfg x =
          some (⌊x / cfg.min_price_change⌋ * cfg.min_price_change) ∧
        MarketConfig.round_price_up cfg x =
          some (⌈x / cfg.min_price_change⌉ * cfg.min_price_change)) ∧
      (cfg.min_order_size_change = 0 →
        MarketConfig.round_qty_down cfg x = none ∧
        MarketConfig.round_qty_up cfg x = none) ∧
      (cfg.min_order_size_change < 0 →
        MarketConfig.round_qty_down cfg x =
          some (⌊x / cfg.min_order_size_change⌋ * cfg.min_order_size_change) ∧
        MarketConfig.round_qty_up cfg x =
          some (⌈x / cfg.min_order_size_change⌉ * cfg.min_order_size_change)) := by
  intro cfg x
  refine ⟨?_, ?_, ?_, ?_⟩
  · intro h
    rw [MarketConfig.round_price_down, MarketConfig.round_price_up, if_pos h, if_pos h]
    exact ⟨rfl, rfl⟩
  · intro h
    rw [MarketConfig.round_price_down, MarketConfig.round_price_up,
      if_neg (ne_of_lt h), if_neg (ne_of_lt h)]
    exact ⟨rfl, rfl⟩
  · intro h
    rw [MarketConfig.round_qty_down, MarketConfig.round_qty_up, if_pos h, if_pos h]
    exact ⟨rfl, rfl⟩
  · intro h
    rw [MarketConfig.round_qty_down, MarketConfig.round_qty_up,
      if_neg (ne_of_lt h), if_neg (ne_of_lt h)]
    exact ⟨rfl, rfl⟩

/-- Witness for C5 (amended) at tick and step sizes 0 and -1 with value 5. -/
theorem C5_no_config_error_witness :
    (MarketConfig.round_price_down c5_zero_config 5 = none ∧
     MarketConfig.round_price_up c5_zero_config 5 = none) ∧
    (MarketConfig.round_price_down c5_config 5 =
       some (⌊(5 : ℚ) / c5_config.min_price_change⌋ * c5_config.min_price_change) ∧
     MarketConfig.round_price_up c5_config 5 =
       some (⌈(5 : ℚ) / c5_config.min_price_change⌉ * c5_config.min_price_change)) ∧
    (MarketConfig.round_qty_down c5_zero_config 5 = none ∧
     MarketConfig.round_qty_up c5_zero_config 5 = none) ∧
    (MarketConfig.round_qty_down c5_config 5 =
       some (⌊(5 : ℚ) / c5_config.min_order_size_change⌋ * c5_config.min_order_size_change) ∧
     MarketConfig.round_qty_up c5_config 5 =
       some (⌈(5 : ℚ) / c5_config.min_order_size_change⌉ * c5_config.min_order_size_change)) :=
  ⟨(C5_no_config_error c5_zero_config 5).1 rfl,
   (C5_no_config_error c5_config 5).2.1 (by norm_num [c5_config]),
   (C5_no_config_error c5_zero_config 5).2.2.1 rfl,
   (C5_no_config_error c5_config 5).2.2.2 (by norm_num [c5_config])⟩

theorem grid_round_core (g x : ℚ) (hg : 0 < g) :
    ⌊(⌊x / g⌋ * g) / g⌋ * g = ⌊x / g⌋ * g ∧
    ⌊x / g⌋ * g ≤ x ∧ x ≤ ⌈x / g⌉ * g := by
  have hg0 : g ≠ 0 := ne_of_gt hg
  refine ⟨?_, ?_, ?_⟩
  · rw [mul_div_cancel_right₀ _ hg0, Int.floor_intCast]
  · calc (⌊x / g⌋ : ℚ) * g ≤ (x / g) * g :=
          mul_le_mul_of_nonneg_right (Int.floor_le _) hg.le
      _ = x := div_mul_cancel₀ x hg0
  · calc x = (x / g) * g := (div_mul_cancel₀ x hg0).symm
      _ ≤ (⌈x / g⌉ : ℚ) * g := mul_le_mul_of_nonneg_right (Int.le_ceil _) hg.le

/-- C6.  For every decimal `x` and positive grid, rounding down computes
`floor(x/g)·g`, rounding up computes `ceil(x/g)·g`, rounding down is
idempotent, and `round_down(x) ≤ x ≤ round_up(x)`; this holds for both the
price (tick) and quantity (step) grids. -/
theorem C6_grid_rounding :
    ∀ (cfg : MarketConfig) (x : ℚ),
      (0 < cfg.min_price_change →
        ∃ y z, MarketConfig.round_price_down cfg x = some y ∧
          MarketConfig.round_price_up cfg x = some z ∧
          y = ⌊x / cfg.min_price_change⌋ * cfg.min_price_change ∧
          z = ⌈x / cfg.min_price_change⌉ * cfg.min_price_change ∧
          MarketConfig.round_price_down cfg y = some y ∧
          y ≤ x ∧ x ≤ z) ∧
      (0 < cfg.min_order_size_change →
        ∃ y z, MarketConfig.round_qty_down cfg x = some y ∧
          MarketConfig.round_qty_up cfg x = some z ∧
          y = ⌊x / cfg.min_order_size_change⌋ * cfg.min_order_size_change ∧
          z = ⌈x / cfg.min_order_size_change⌉ * cfg.min_order_size_change ∧
          MarketConfig.round_qty_down cfg y = some y ∧
          y ≤ x ∧ x ≤ z) := by
  intro cfg x
  constructor
  · intro hg
    obtain ⟨hid, hle, hge⟩ := grid_round_core cfg.min_price_change x hg
    refine ⟨⌊x / cfg.min_price_change⌋ * cfg.min_price_change,
      ⌈x / cfg.min_price_change⌉ * cfg.min_price_change, ?_, ?_, rfl, rfl, ?_, hle, hge⟩
    · rw [MarketConfig.round_price_down, if_neg (ne_of_gt hg)]
    · rw [MarketConfig.round_price_up, if_neg (ne_of_gt hg)]
    · rw [MarketConfig.round_price_down, if_neg (ne_of_gt hg), hid]
  · intro hg
    obtain ⟨hid, hle, hge⟩ := grid_round_core cfg.min_order_size_change x hg
    refine ⟨⌊x / cfg.min_order_size_change⌋ * cfg.min_order_size_change,
      ⌈x / cfg.min_order_size_change⌉ * cfg.min_order_size_change, ?_, ?_, rfl, rfl, ?_, hle, hge⟩
    · rw [MarketConfig.round_qty_down, if_neg (ne_of_gt hg)]
    · rw [MarketConfig.round_qty_up, if_neg (ne_of_gt hg)]
    · rw [MarketConfig.round_qty_down, if_neg (ne_of_gt hg), hid]

/-- Market configuration with tick size `1/2` and step size `1/4`. -/
def c6_config : MarketConfig :=
  { c5_config with min_price_change := 1/2, min_order_size_change := 1/4 }

/-- Witness for C6 at grids `1/2`, `1/4` and value `5/3`. -/
theorem C6_grid_rounding_witness :
    (∃ y z, MarketConfig.round_price_down c6_config (5/3) = some y ∧
      MarketConfig.round_price_up c6_config (5/3) = some z ∧
      y = ⌊(5/3 : ℚ) / c6_config.min_price_change⌋ * c6_config.min_price_change ∧
      z = ⌈(5/3 : ℚ) / c6_config.min_price_change⌉ * c6_config.min_price_change ∧
      MarketConfig.round_price_down c6_config y = some y ∧
      y ≤ (5/3 : ℚ) ∧ (5/3 : ℚ) ≤ z) ∧
    (∃ y z, MarketConfig.round_qty_down c6_config (5/3) = some y ∧
      MarketConfig.round_qty_up c6_config (5/3) = some z ∧
      y = ⌊(5/3 : ℚ) / c6_config.min_order_size_change⌋ * c6_config.min_order_size_change ∧
      z = ⌈(5/3 : ℚ) / c6_config.min_order_size_change⌉ * c6_config.min_order_size_change ∧
      MarketConfig.round_qty_down c6_config y = some y ∧
      y ≤ (5/3 : ℚ) ∧ (5/3 : ℚ) ≤ z) :=
  ⟨(C6_grid_rounding c6_config (5/3)).1 (by norm_num [c6_config, c5_config]),
   (C6_grid_rounding c6_config (5/3)).2 (by norm_num [c6_config, c5_config])⟩

/-- Order with quantity `2^63 - 1/2`, price 0. -/
def c9_order : CreateOrderRequest :=
  { sample_order with quantity := 18446744073709551615/2, price := 0 }

/-- Signing parameters with synthetic resolution 1. -/
def c9_params : OrderSigningParams := { sample_params with synthetic_resolution := 1 }

/-- C9.  The claim states canonicalization fails with an overflow error
whenever `quantity × synthetic_resolution` exceeds `2^63 - 1`.
Counterexample: the product `2^63 - 1/2` exceeds `2^63 - 1`, yet `to_i64`
truncates it to `2^63 - 1`, which fits, and canonicalization succeeds. -/
theorem C9_counterexample :
    (9223372036854775807 : ℚ) < c9_order.quantity * (c9_params.synthetic_resolution : ℚ) ∧
    calculate_stark_amounts c9_order c9_params =
      .ok (9223372036854775807, 0, 0) := by
  constructor
  · norm_num [c9_order, sample_order, c9_params, sample_params]
  · norm_num [calculate_stark_amounts, decimal_to_i64, decimal_to_u64, truncQ, i64_neg,
      c9_order, sample_order, c9_params, sample_params, I64_MIN, I64_MAX, U64_MAX,
      COLLATERAL_RESOLUTION]

/-- C9 (amended).  Whenever `quantity × synthetic_resolution ≥ 2^63` (or
`price × quantity × collateral_resolution ≥ 2^63`, i.e. the truncated value
no longer fits in an i64), amount canonicalization fails with an overflow
error — it never truncates the value into range, saturates, or wraps, and no
signed result is produced. -/
theorem C9_overflow_errors :
    ∀ (order : CreateOrderRequest) (params : OrderSigningParams),
      ((9223372036854775808 : ℚ) ≤ order.quantity * (params.synthetic_resolution : ℚ) ∨
       (9223372036854775808 : ℚ) ≤ (order.price * order.quantity) * (COLLATERAL_RESOLUTION : ℚ)) →
      (calculate_stark_amounts order params = .error (.Signing ("Synthetic amount overflow")) ∨
       calculate_stark_amounts order params = .error (.Signing ("Collateral amount overflow"))) := by
  intro order params h
  rw [calculate_stark_amounts]
  rcases h with h | h
  · rw [decimal_to_i64_big_none h]
    exact Or.inl rfl
  · cases h1 : decimal_to_i64 (order.quantity * (params.synthetic_resolution : ℚ)) with
    | none => exact Or.inl rfl
    | some su =>
      simp only [h1, decimal_to_i64_big_none h]
      exact Or.inr trivial

/-- Witness for C9 (amended): quantity `2^63 / 10` against resolution 10. -/
theorem C9_overflow_errors_witness :
    calculate_stark_amounts { sample_order with quantity := 9223372036854775808/10 } sample_params =
      .error (.Signing ("Synthetic amount overflow")) ∨
    calculate_stark_amounts { sample_order with quantity := 9223372036854775808/10 } sample_params =
      .error (.Signing ("Collateral amount overflow")) :=
  C9_overflow_errors _ sample_params
    (Or.inl (by norm_num [sample_order, sample_params]))

/-- Order whose nonce is the non-integral decimal `3/2`. -/
def c10_order : CreateOrderRequest := { sample_order with nonce := 3/2 }

/-- C10.  The claim states every nonce not representable as a u64 (negative,
fractional, or above `2^64 - 1`) is silently replaced by `0`.
Counterexample: the fractional nonce `3/2` (strictly between 1 and 2, hence
not a u64 value) is truncated to `1`, not replaced by `0`. -/
theorem C10_counterexample :
    (1 : ℚ) < c10_order.nonce ∧ c10_order.nonce < 2 ∧
    order_nonce_u64 c10_order = 1 := by
  refine ⟨by norm_num [c10_order, sample_order], by norm_num [c10_order, sample_order], ?_⟩
  norm_num [order_nonce_u64, decimal_to_u64, truncQ, c10_order, sample_order, U64_MAX]

/-- C10 (amended).  The nonce handling `nonce.to_u64().unwrap_or(0)` never
reports an error: a negative nonce or one `≥ 2^64` is silently replaced by
`0`, while a nonce in `[0, 2^64)` — fractional or not — is silently truncated
to its integer part and signed over. -/
theorem C10_nonce_substitution :
    ∀ (order : CreateOrderRequest),
      (order.nonce < 0 → order_nonce_u64 order = 0) ∧
      ((18446744073709551616 : ℚ) ≤ order.nonce → order_nonce_u64 order = 0) ∧
      (0 ≤ order.nonce → order.nonce < 18446744073709551616 →
        order_nonce_u64 order = ⌊order.nonce⌋) := by
  intro order
  refine ⟨?_, ?_, ?_⟩
  · intro h
    rw [order_nonce_u64, decimal_to_u64, if_pos h]
    rfl
  · intro h
    have h0 : ¬ order.nonce < 0 := not_lt.mpr (le_trans (by norm_num) h)
    have hbig : ¬ truncQ order.nonce ≤ U64_MAX := by
      rw [truncQ_of_nonneg (not_lt.mp h0), U64_MAX]
      have : (18446744073709551616 : ℤ) ≤ ⌊order.nonce⌋ :=
        Int.le_floor.mpr (by exact_mod_cast h)
      omega
    rw [order_nonce_u64, decimal_to_u64, if_neg h0, if_neg hbig]
    rfl
  · intro h0 h1
    have hfit : truncQ order.nonce ≤ U64_MAX := by
      rw [truncQ_of_nonneg h0, U64_MAX]
      have : ⌊order.nonce⌋ < 18446744073709551616 :=
        Int.floor_lt.mpr (by exact_mod_cast h1)
      omega
    rw [order_nonce_u64, decimal_to_u64, if_neg (not_lt.mpr h0), if_pos hfit,
      truncQ_of_nonneg h0]
    rfl

/-- Witness for C10 (amended) at nonces -3, `2^64` and 0. -/
theorem C10_nonce_substitution_witness :
    order_nonce_u64 { sample_order with nonce := -3 } = 0 ∧
    order_nonce_u64 { sample_order with nonce := 18446744073709551616 } = 0 ∧
    order_nonce_u64 sample_order = ⌊sample_order.nonce⌋ :=
  ⟨(C10_nonce_substitution _).1 (by norm_num [sample_order]),
   (C10_nonce_substitution _).2.1 (by norm_num [sample_order]),
   (C10_nonce_substitution sample_order).2.2 (by norm_num [sample_order])
     (by norm_num [sample_order])⟩

/-- Wrap-around behaviour of `u64_as_i64` on values in `[0, 2^63)`. -/
theorem u64_as_i64_of_small {f : ℤ} (h0 : 0 ≤ f) (h1 : f ≤ 9223372036854775807) :
    u64_as_i64 f = f := by
  rw [u64_as_i64]
  omega

/-- The fee component returned by a successful `calculate_stark_amounts` is
non-negative (it is the ceiling of an absolute value). -/
theorem calc_fee_nonneg {order : CreateOrderRequest} {params : OrderSigningParams}
    {s c f : ℤ} (h : calculate_stark_amounts order params = .ok (s, c, f)) :
    0 ≤ f := by
  rw [calculate_stark_amounts_ok_iff] at h
  obtain ⟨su, cu, -, -, hfu, -⟩ := h
  rw [decimal_to_u64_eq_some] at hfu
  obtain ⟨-, rfl, -⟩ := hfu
  rw [truncQ_intCast]
  exact Int.ceil_nonneg (abs_nonneg _)

/-- C7 (amended).  Every order successfully signed by
`sign_order_with_params` has its `id` equal to the decimal-string form of the
computed order hash, carries a settlement attachment holding the hex-encoded
`r`, `s` signature components, the stored public key of the signer and the vault
id, and carries debug amounts equal to the canonicalized synthetic and
collateral amounts and to the fee amount reinterpreted through the Rust
`as i64` cast (equal to the fee amount whenever the fee is at most
`2^63 - 1`). -/
theorem C7_signed_order_shape :
    ∀ (get_order_hash : OrderHashInput → Except String ℕ)
      (sign_message : ℕ → ℕ → Except String (ℕ × ℕ))
      (order : CreateOrderRequest) (signer : StarkSigner)
      (params : OrderSigningParams) (result : CreateOrderRequest),
      sign_order_with_params get_order_hash sign_message order signer params = .ok result →
      ∃ s c f hv rv sv,
        calculate_stark_amounts order params = .ok (s, c, f) ∧
        get_order_hash (order_hash_input order signer params s c f) = .ok hv ∧
        sign_message hv signer.private_key = .ok (rv, sv) ∧
        result.id = toString hv ∧
        result.settlement = some
          { signature := { r := felt_hex rv, s := felt_hex sv }
            stark_key := felt_hex signer.public_key
            collateral_position := (params.vault_id : ℚ) } ∧
        result.debugging_amounts = some
          { collateral_amount := (c : ℚ)
            fee_amount := ((u64_as_i64 f : ℤ) : ℚ)
            synthetic_amount := (s : ℚ) } ∧
        (f ≤ 9223372036854775807 → ((u64_as_i64 f : ℤ) : ℚ) = (f : ℚ)) := by
  intro ghf smf order signer params result h
  rw [sign_order_with_params] at h
  cases hcalc : calculate_stark_amounts order params with
  | error e => simp only [hcalc, reduceCtorEq] at h
  | ok triple =>
    obtain ⟨s, c, f⟩ := triple
    simp only [hcalc] at h
    cases hh : ghf (order_hash_input order signer params s c f) with
    | error e => simp only [hh, reduceCtorEq] at h
    | ok hv =>
      simp only [hh] at h
      rw [StarkSigner.sign] at h
      cases hs : smf hv signer.private_key with
      | error e => simp only [hs, reduceCtorEq] at h
      | ok rs =>
        obtain ⟨rv, sv⟩ := rs
        simp only [hs, Except.ok.injEq] at h
        refine ⟨s, c, f, hv, rv, sv, rfl, hh, hs, ?_, ?_, ?_, ?_⟩
        · rw [← h]
        · rw [← h]
        · rw [← h]
        · intro hle
          rw [u64_as_i64_of_small (calc_fee_nonneg hcalc) hle]

/-- Hash primitive stub returning the fixed hash 9. -/
def c7_hash_fn : OrderHashInput → Except String ℕ := fun _ => .ok 9

/-- Signature primitive stub returning the fixed pair (4, 5). -/
def c7_sign_fn : ℕ → ℕ → Except String (ℕ × ℕ) := fun _ _ => .ok (4, 5)

/-- Signer with private key 1 and stored public key 2. -/
def c7_signer : StarkSigner := { private_key := 1, public_key := 2 }

/-- Order whose fee rate `2^63 / 10^6` makes the fee amount `2^63`, one more
than `i64::MAX`, at price 1 and quantity 1. -/
def c7_order : CreateOrderRequest :=
  { sample_order with price := 1, quantity := 1, fee := 9223372036854775808/1000000 }

/-- C7.  The claim states the debug amounts of a successfully signed order
equal the canonicalized synthetic, collateral and fee amounts.
Counterexample: for a fee amount of `2^63` (which passes the unsigned 64-bit
conversion) the signing succeeds, but the debug fee amount is written through
the Rust `as i64` cast and wraps to `-2^63`, while the canonicalized fee
amount that enters the hash preimage is `+2^63`. -/
theorem C7_counterexample :
    calculate_stark_amounts c7_order sample_params =
      .ok (10, -1000000, 9223372036854775808) ∧
    (∃ result,
      sign_order_with_params c7_hash_fn c7_sign_fn c7_order c7_signer sample_params = .ok result ∧
      result.debugging_amounts = some
        { collateral_amount := -1000000
          fee_amount := -9223372036854775808
          synthetic_amount := 10 }) ∧
    ((-9223372036854775808 : ℚ) < 0 ∧ (0 : ℚ) < 9223372036854775808) := by
  have hcalc : calculate_stark_amounts c7_order sample_params =
      .ok (10, -1000000, 9223372036854775808) := by
    norm_num [calculate_stark_amounts, decimal_to_i64, decimal_to_u64, truncQ, i64_neg,
      c7_order, sample_order, sample_params, I64_MIN, I64_MAX, U64_MAX,
      COLLATERAL_RESOLUTION]
  have hwrap : u64_as_i64 9223372036854775808 = -9223372036854775808 := by decide
  refine ⟨hcalc, ?_, by norm_num, by norm_num⟩
  rw [sign_order_with_params, hcalc]
  refine ⟨_, rfl, ?_⟩
  simp only [c7_hash_fn, StarkSigner.sign, c7_sign_fn, hwrap]
  norm_num

/-- The order produced by signing the sample order with the stub primitives. -/
def c7w_result : CreateOrderRequest :=
  { sample_order with
    id := toString (9 : ℕ)
    settlement := some
      { signature := { r := felt_hex 4, s := felt_hex 5 }
        stark_key := felt_hex c7_signer.public_key
        collateral_position := ((7 : ℕ) : ℚ) }
    debugging_amounts := some
      { collateral_amount := ((-6000000 : ℤ) : ℚ)
        fee_amount := ((u64_as_i64 0 : ℤ) : ℚ)
        synthetic_amount := ((30 : ℤ) : ℚ) } }

/-- Witness for C7 (amended): the sample order signed with the stub
primitives. -/
theorem C7_signed_order_shape_witness :
    ∃ s c f hv rv sv,
      calculate_stark_amounts sample_order sample_params = .ok (s, c, f) ∧
      c7_hash_fn (order_hash_input sample_order c7_signer sample_params s c f) = .ok hv ∧
      c7_sign_fn hv c7_signer.private_key = .ok (rv, sv) ∧
      c7w_result.id = toString hv ∧
      c7w_result.settlement = some
        { signature := { r := felt_hex rv, s := felt_hex sv }
          stark_key := felt_hex c7_signer.public_key
          collateral_position := (sample_params.vault_id : ℚ) } ∧
      c7w_result.debugging_amounts = some
        { collateral_amount := (c : ℚ)
          fee_amount := ((u64_as_i64 f : ℤ) : ℚ)
          synthetic_amount := (s : ℚ) } ∧
      (f ≤ 9223372036854775807 → ((u64_as_i64 f : ℤ) : ℚ) = (f : ℚ)) :=
  C7_signed_order_shape c7_hash_fn c7_sign_fn sample_order c7_signer sample_params
    c7w_result (by
      have hcalc : calculate_stark_amounts sample_order sample_params =
          .ok (30, -6000000, 0) := by
        norm_num [calculate_stark_amounts, decimal_to_i64, decimal_to_u64, truncQ, i64_neg,
          sample_order, sample_params, I64_MIN, I64_MAX, U64_MAX, COLLATERAL_RESOLUTION]
      rw [sign_order_with_params, hcalc]
      rfl)

/-- Curve primitive stub mapping a private key `n` to public key `n + 5`
(so key 1 derives 6, mismatching a stored key 2). -/
def c8_get_public_key : ℕ → ℕ := fun n => n + 5

/-- C8.  The key-consistency check returns true exactly when the derived
public key equals the stored one; a mismatch never causes signing to fail
(with the external primitives succeeding, the pipeline succeeds even when
the check is false); and the pipeline places the explicitly supplied stored
public key — not the derived one — both in the hash preimage and in the
settlement attachment. -/
theorem C8_key_consistency :
    ∀ (get_public_key : ℕ → ℕ) (priv pub : ℕ)
      (get_order_hash : OrderHashInput → Except String ℕ)
      (sign_message : ℕ → ℕ → Except String (ℕ × ℕ))
      (order : CreateOrderRequest) (params : OrderSigningParams)
      (s c f : ℤ) (hv rv sv : ℕ),
      (StarkSigner.verify_public_key get_public_key
          (StarkSigner.with_public_key priv pub) = true ↔
        get_public_key priv = pub) ∧
      (order_hash_input order (StarkSigner.with_public_key priv pub) params s c f).public_key =
        felt_hex pub ∧
      (StarkSigner.verify_public_key get_public_key
          (StarkSigner.with_public_key priv pub) = false →
        calculate_stark_amounts order params = .ok (s, c, f) →
        get_order_hash
            (order_hash_input order (StarkSigner.with_public_key priv pub) params s c f) =
          .ok hv →
        sign_message hv priv = .ok (rv, sv) →
        ∃ result,
          sign_order_with_params get_order_hash sign_message order
            (StarkSigner.with_public_key priv pub) params = .ok result ∧
          result.settlement = some
            { signature := { r := felt_hex rv, s := felt_hex sv }
              stark_key := felt_hex pub
              collateral_position := (params.vault_id : ℚ) }) := by
  intro gpk priv pub ghf smf order params s c f hv rv sv
  refine ⟨?_, rfl, ?_⟩
  · rw [StarkSigner.verify_public_key]
    exact decide_eq_true_iff
  · intro hmismatch hcalc hh hs
    have hs2 : smf hv (StarkSigner.with_public_key priv pub).private_key = .ok (rv, sv) := hs
    rw [sign_order_with_params]
    simp only [hcalc, hh, StarkSigner.sign, hs2]
    exact ⟨_, rfl, rfl⟩

/-- Witness for C8: private key 1, stored public key 2 (the stub derives 6,
a mismatch), stub hash and signature primitives, at the sample order. -/
theorem C8_key_consistency_witness :
    (StarkSigner.verify_public_key c8_get_public_key
        (StarkSigner.with_public_key 1 2) = true ↔
      c8_get_public_key 1 = 2) ∧
    (order_hash_input sample_order (StarkSigner.with_public_key 1 2) sample_params
        30 (-6000000) 0).public_key = felt_hex 2 ∧
    (∃ result,
      sign_order_with_params c7_hash_fn c7_sign_fn sample_order
        (StarkSigner.with_public_key 1 2) sample_params = .ok result ∧
      result.settlement = some
        { signature := { r := felt_hex 4, s := felt_hex 5 }
          stark_key := felt_hex 2
          collateral_position := (sample_params.vault_id : ℚ) }) := by
  obtain ⟨h1, h2, h3⟩ := C8_key_consistency c8_get_public_key 1 2 c7_hash_fn c7_sign_fn
    sample_order sample_params 30 (-6000000) 0 9 4 5
  refine ⟨h1, h2, h3 (by decide) ?_ rfl rfl⟩
  norm_num [calculate_stark_amounts, decimal_to_i64, decimal_to_u64, truncQ, i64_neg,
    sample_order, sample_params, I64_MIN, I64_MAX, U64_MAX, COLLATERAL_RESOLUTION]
